import Mathlib

/-!
Verification of the MIFARE Classic poller protocol layer
(`lib/nfc/protocols/mf_classic/mf_classic_poller_i.c`).

The C file drives a stream-cipher-protected card session on top of an
ISO14443-3A link layer.  We embed it shallowly: every link-layer
round-trip is an explicit `LinkResult` input (the error code the link
layer reported together with the bytes it placed in the receive
buffer), the stream cipher is an abstract state `σ` together with a
record `CipherOps σ` of its operations (the cipher algorithm is an
external collaborator of the C file), and each C function becomes a
pure Lean function from the poller state, its arguments and the
link-layer outcomes to its returned error code, the updated poller
state, its outputs, and a trace of the externally visible actions it
performed (frames handed to the link layer, cipher advances, calls to
the link layer's halt).
-/

namespace MfClassic

/-- Error outcomes of the ISO14443-3A link layer, mirroring the
`Iso14443_3aError` enumeration consumed by `mf_classic_process_error`.
`bufferOverflow` and `fieldOff` stand for the enumeration values that
the C `switch` only reaches through its `default` arm. -/
inductive Iso14443_3aError where
  | none
  | notPresent
  | colResFailed
  | communication
  | wrongCrc
  | timeout
  | bufferOverflow
  | fieldOff
  deriving DecidableEq, Repr

/-- Protocol-layer error categories (`MfClassicError`). -/
inductive MfClassicError where
  | none
  | notPresent
  | protocol
  | auth
  | timeout
  deriving DecidableEq, Repr

/-- `mf_classic_process_error`: maps a link-layer outcome to a
protocol-layer error category (the ErrorMapper). -/
def mf_classic_process_error : Iso14443_3aError → MfClassicError
  | .none => .none
  | .notPresent => .notPresent
  | .colResFailed => .protocol
  | .communication => .protocol
  | .wrongCrc => .protocol
  | .timeout => .timeout
  | .bufferOverflow => .protocol
  | .fieldOff => .protocol

/-- A bit buffer: its size in bits together with its byte contents,
mirroring the `BitBuffer` API used by the C file
(`bit_buffer_get_size` is the bit size, `bit_buffer_get_size_bytes`
the byte size `size_bits / 8`, `bit_buffer_get_byte` indexes the
data). -/
structure BitBuffer where
  sizeBits : Nat
  bytes : List Nat
  deriving DecidableEq, Repr

/-- `bit_buffer_copy_bytes`: a buffer holding exactly the given bytes. -/
def BitBuffer.ofBytes (data : List Nat) : BitBuffer :=
  { sizeBits := 8 * data.length, bytes := data }

/-- `bit_buffer_get_size_bytes`. -/
def BitBuffer.sizeBytes (b : BitBuffer) : Nat := b.sizeBits / 8

/-- `bit_buffer_get_byte`. -/
def BitBuffer.getByte (b : BitBuffer) (i : Nat) : Nat := b.bytes.getD i 0

/-- One step of the ISO14443-A CRC (poly `0x8408` reflected,
byte-at-a-time), as computed by the `iso14443_crc` helper. -/
def iso14443CrcUpdate (crc b : Nat) : Nat :=
  let x1 := (b ^^^ crc) % 256
  let x := (x1 ^^^ ((x1 <<< 4) % 256)) % 256
  ((crc >>> 8) ^^^ (x <<< 8) ^^^ (x <<< 3) ^^^ (x >>> 4)) % 65536

/-- CRC_A over a byte list, initial value `0x6363`. -/
def iso14443CrcA (data : List Nat) : Nat :=
  data.foldl iso14443CrcUpdate 0x6363

/-- `iso14443_crc_append`: append the two CRC bytes (low byte first). -/
def iso14443_crc_append (b : BitBuffer) : BitBuffer :=
  let crc := iso14443CrcA b.bytes
  { sizeBits := b.sizeBits + 16, bytes := b.bytes ++ [crc % 256, (crc >>> 8) % 256] }

/-- `iso14443_crc_check`: recompute the CRC over all but the last two
bytes and compare with the trailing two bytes. -/
def iso14443_crc_check (b : BitBuffer) : Bool :=
  let n := b.sizeBytes
  if n ≤ 2 then false
  else
    let crc := iso14443CrcA (b.bytes.take (n - 2))
    ((b.bytes.take n).drop (n - 2)) == [crc % 256, (crc >>> 8) % 256]

/-- `iso14443_crc_trim`: drop the two trailing CRC bytes. -/
def iso14443_crc_trim (b : BitBuffer) : BitBuffer :=
  { sizeBits := b.sizeBits - 16, bytes := b.bytes.take (b.sizeBytes - 2) }

/-- `bit_lib_bytes_to_num_be`: big-endian byte list to number. -/
def bit_lib_bytes_to_num_be (bs : List Nat) : Nat :=
  bs.foldl (fun acc b => acc * 256 + b % 256) 0

/-! Command opcodes from the protocol header consumed by the C file. -/

def MF_CLASSIC_CMD_AUTH_KEY_A : Nat := 0x60
def MF_CLASSIC_CMD_AUTH_KEY_B : Nat := 0x61
def MF_CLASSIC_CMD_BACKDOOR_AUTH_KEY_A : Nat := 0x64
def MF_CLASSIC_CMD_BACKDOOR_AUTH_KEY_B : Nat := 0x65
def MF_CLASSIC_CMD_READ_BLOCK : Nat := 0x30
def MF_CLASSIC_CMD_WRITE_BLOCK : Nat := 0xA0
def MF_CLASSIC_CMD_VALUE_DEC : Nat := 0xC0
def MF_CLASSIC_CMD_VALUE_INC : Nat := 0xC1
def MF_CLASSIC_CMD_VALUE_RESTORE : Nat := 0xC2
def MF_CLASSIC_CMD_HALT_MSB : Nat := 0x50
def MF_CLASSIC_CMD_HALT_LSB : Nat := 0x00
def MF_CLASSIC_CMD_ACK : Nat := 0x0A

/-- Numeric codes of the `MfClassicValueCommand` C enumeration, in
declaration order.  The value command argument is modelled as a plain
`Nat` because the C function accepts any enumeration-typed integer and
its selection chain must be total on them. -/
def MfClassicValueCommandIncrement : Nat := 0
def MfClassicValueCommandDecrement : Nat := 1
def MfClassicValueCommandRestore : Nat := 2

/-- Key type selector (`MfClassicKeyType`). -/
inductive MfClassicKeyType where
  | a
  | b
  deriving DecidableEq, Repr

/-- Session authentication state (`MfClassicAuthState`). -/
inductive MfClassicAuthState where
  | idle
  | passed
  deriving DecidableEq, Repr

/-- Link-layer poller state, reduced to what the protocol layer
observes or forces: `idle` and a representative non-idle state. -/
inductive Iso14443_3aPollerState where
  | idle
  | activated
  deriving DecidableEq, Repr

/-- Interface of the stream cipher (external collaborator): encrypt
and decrypt consume keystream and transform a buffer, `word` is the
one-word keystream advance `crypto1_word(crypto, 0, 0)`, and
`encryptReaderNonce` is `crypto1_encrypt_reader_nonce(key, cuid, nt,
nr, out, is_nested)`, producing the combined encrypted reader
nonce/response frame. -/
structure CipherOps (σ : Type) where
  encrypt : σ → BitBuffer → σ × BitBuffer
  decrypt : σ → BitBuffer → σ × BitBuffer
  word : σ → σ
  encryptReaderNonce : σ → Nat → Nat → List Nat → List Nat → Bool → σ × BitBuffer

/-- The poller instance state a call can read or mutate: the
authentication state, the link-layer poller's state field, the cipher
state, the link layer's card identity (`cuid`) and its mirror in
`instance->data`, and the four reusable frame buffers. -/
structure PollerState (σ : Type) where
  authState : MfClassicAuthState
  isoState : Iso14443_3aPollerState
  crypto : σ
  pollerCuid : Nat
  dataCuid : Nat
  txPlain : BitBuffer
  txEncrypted : BitBuffer
  rxPlain : BitBuffer
  rxEncrypted : BitBuffer

/-- Outcome of one link-layer round-trip: the error code the link
layer returned and the contents of the receive buffer afterwards. -/
structure LinkResult where
  err : Iso14443_3aError
  rx : BitBuffer
  deriving DecidableEq, Repr

/-- Externally visible actions of a protocol call: a plaintext
standard frame handed to the link layer, an encrypted frame (recorded
by its plaintext before encryption), the combined reader
nonce/response frame, a one-word cipher advance, and an invocation of
the link layer's own halt. -/
inductive PollerEvent where
  | txStandard (plain : BitBuffer)
  | txEncrypted (plain : BitBuffer)
  | txReaderNonce
  | cipherWord
  | linkHalt
  deriving DecidableEq, Repr

/-- Modelled from the spec: the link layer's `halt_local_state()`
(`iso14443_3a_poller_halt`, whose body is outside this file) forces
the link-layer poller's own state back to idle.  We additionally
record the invocation in the trace. -/
def iso14443_3a_poller_halt (st : PollerState σ) : PollerState σ × List PollerEvent :=
  ({ st with isoState := .idle }, [PollerEvent.linkHalt])

/-- Result of a nonce retrieval: returned error, updated state, the
nonce written to the out-parameter (`none` when the function returned
without writing it), and the action trace. -/
structure NtResult (σ : Type) where
  ret : MfClassicError
  st : PollerState σ
  nt : Option (List Nat)
  trace : List PollerEvent

/-- Authentication command opcode, selected by the backdoor flag and
the key type. -/
def mf_classic_auth_type (backdoor_auth : Bool) (key_type : MfClassicKeyType) : Nat :=
  if backdoor_auth then
    if key_type = .b then MF_CLASSIC_CMD_BACKDOOR_AUTH_KEY_B
    else MF_CLASSIC_CMD_BACKDOOR_AUTH_KEY_A
  else
    if key_type = .b then MF_CLASSIC_CMD_AUTH_KEY_B
    else MF_CLASSIC_CMD_AUTH_KEY_A

/-- `mf_classic_poller_get_nt_common`: build the 2-byte authenticate
command; in nested mode append the CRC, encrypt and transmit with
custom parity expecting a clean link outcome; in fresh mode transmit
as a plaintext standard frame expecting the link layer to report a
CRC failure (the 4-byte nonce is not checksum-terminated); then
require a 4-byte payload and copy it out. -/
def mf_classic_poller_get_nt_common (ops : CipherOps σ) (st : PollerState σ)
    (block_num : Nat) (key_type : MfClassicKeyType)
    (nt_requested is_nested backdoor_auth : Bool) (env : LinkResult) : NtResult σ :=
  let auth_type := mf_classic_auth_type backdoor_auth key_type
  let cmd := BitBuffer.ofBytes [auth_type, block_num]
  if is_nested then
    let framed := iso14443_crc_append cmd
    let ec := ops.encrypt st.crypto framed
    let st1 := { st with
      crypto := ec.1, txPlain := framed, txEncrypted := ec.2, rxPlain := env.rx }
    let tr := [PollerEvent.txEncrypted framed]
    if env.err ≠ Iso14443_3aError.none then
      { ret := mf_classic_process_error env.err, st := st1, nt := none, trace := tr }
    else if env.rx.sizeBytes ≠ 4 then
      { ret := .protocol, st := st1, nt := none, trace := tr }
    else
      { ret := .none, st := st1,
        nt := if nt_requested then some (env.rx.bytes.take 4) else none, trace := tr }
  else
    let st1 := { st with txPlain := cmd, rxPlain := env.rx }
    let tr := [PollerEvent.txStandard cmd]
    if env.err ≠ Iso14443_3aError.wrongCrc then
      { ret := mf_classic_process_error env.err, st := st1, nt := none, trace := tr }
    else if env.rx.sizeBytes ≠ 4 then
      { ret := .protocol, st := st1, nt := none, trace := tr }
    else
      { ret := .none, st := st1,
        nt := if nt_requested then some (env.rx.bytes.take 4) else none, trace := tr }

/-- `mf_classic_poller_get_nt` (fresh mode wrapper). -/
def mf_classic_poller_get_nt (ops : CipherOps σ) (st : PollerState σ)
    (block_num : Nat) (key_type : MfClassicKeyType)
    (nt_requested backdoor_auth : Bool) (env : LinkResult) : NtResult σ :=
  mf_classic_poller_get_nt_common ops st block_num key_type nt_requested false backdoor_auth env

/-- `mf_classic_poller_get_nt_nested` (nested mode wrapper). -/
def mf_classic_poller_get_nt_nested (ops : CipherOps σ) (st : PollerState σ)
    (block_num : Nat) (key_type : MfClassicKeyType)
    (nt_requested backdoor_auth : Bool) (env : LinkResult) : NtResult σ :=
  mf_classic_poller_get_nt_common ops st block_num key_type nt_requested true backdoor_auth env

/-- Authentication transcript writes (`MfClassicAuthContext`): each
field is `some` exactly when the C function wrote it into the caller's
context. -/
structure AuthOut where
  nt : Option (List Nat)
  nr : Option (List Nat)
  ar : Option (List Nat)
  at_ : Option (List Nat)
  deriving DecidableEq, Repr

/-- The all-unwritten transcript. -/
def emptyAuthOut : AuthOut := ⟨none, none, none, none⟩

/-- Result of an authentication call. -/
structure AuthResult (σ : Type) where
  ret : MfClassicError
  st : PollerState σ
  out : AuthOut
  trace : List PollerEvent

/-- `mf_classic_poller_auth_common`: snapshot the link layer's card
identity, retrieve the tag nonce (fresh or nested), optionally stop
after reporting it (`early_ret`), otherwise build and transmit the
encrypted reader nonce/response frame (`nrRand` is the hardware RNG
fill of the reader nonce), check the 4-byte tag response, advance the
cipher by one word, mark the session passed, populate the transcript,
and on any error invoke the link layer's halt before returning.  The
C local `MfClassicNt nt = {}` starts zeroed, so when the nonce
exchange returns no error without writing it (clean link success in
fresh mode) the handshake continues with the zero nonce. -/
def mf_classic_poller_auth_common (ops : CipherOps σ) (st : PollerState σ)
    (block_num : Nat) (key : List Nat) (key_type : MfClassicKeyType)
    (has_data is_nested backdoor_auth early_ret : Bool)
    (ntEnv : LinkResult) (nrRand : List Nat) (arEnv : LinkResult) : AuthResult σ :=
  let st0 := { st with dataCuid := st.pollerCuid }
  let r := mf_classic_poller_get_nt_common ops st0 block_num key_type true is_nested
    backdoor_auth ntEnv
  if r.ret ≠ MfClassicError.none then
    let halted := iso14443_3a_poller_halt r.st
    { ret := r.ret, st := halted.1, out := emptyAuthOut, trace := r.trace ++ halted.2 }
  else
    let ntVal := r.nt.getD [0, 0, 0, 0]
    let out1 : AuthOut :=
      { nt := if has_data then some ntVal else none, nr := none, ar := none, at_ := none }
    if early_ret then
      { ret := .none, st := r.st, out := out1, trace := r.trace }
    else
      let cuid := r.st.dataCuid
      let key_num := bit_lib_bytes_to_num_be key
      let ec := ops.encryptReaderNonce r.st.crypto key_num cuid ntVal nrRand is_nested
      let st2 := { r.st with crypto := ec.1, txEncrypted := ec.2, rxEncrypted := arEnv.rx }
      let tr2 := r.trace ++ [PollerEvent.txReaderNonce]
      if arEnv.err ≠ Iso14443_3aError.none then
        let halted := iso14443_3a_poller_halt st2
        { ret := mf_classic_process_error arEnv.err, st := halted.1, out := out1,
          trace := tr2 ++ halted.2 }
      else
        let ret1 := if arEnv.rx.sizeBytes ≠ 4 then MfClassicError.auth else MfClassicError.none
        let st3 := { st2 with crypto := ops.word st2.crypto, authState := .passed }
        let out2 : AuthOut :=
          if has_data then
            { nt := some ntVal, nr := some nrRand,
              ar := some ((ec.2.bytes.drop 4).take 4),
              at_ := some (arEnv.rx.bytes.take 4) }
          else out1
        let tr3 := tr2 ++ [PollerEvent.cipherWord]
        if ret1 ≠ MfClassicError.none then
          let halted := iso14443_3a_poller_halt st3
          { ret := ret1, st := halted.1, out := out2, trace := tr3 ++ halted.2 }
        else
          { ret := ret1, st := st3, out := out2, trace := tr3 }

/-- `mf_classic_poller_auth` (fresh wrapper, never early-returning). -/
def mf_classic_poller_auth (ops : CipherOps σ) (st : PollerState σ)
    (block_num : Nat) (key : List Nat) (key_type : MfClassicKeyType)
    (has_data backdoor_auth : Bool)
    (ntEnv : LinkResult) (nrRand : List Nat) (arEnv : LinkResult) : AuthResult σ :=
  mf_classic_poller_auth_common ops st block_num key key_type has_data false backdoor_auth false
    ntEnv nrRand arEnv

/-- `mf_classic_poller_auth_nested` (nested wrapper). -/
def mf_classic_poller_auth_nested (ops : CipherOps σ) (st : PollerState σ)
    (block_num : Nat) (key : List Nat) (key_type : MfClassicKeyType)
    (has_data backdoor_auth early_ret : Bool)
    (ntEnv : LinkResult) (nrRand : List Nat) (arEnv : LinkResult) : AuthResult σ :=
  mf_classic_poller_auth_common ops st block_num key key_type has_data true backdoor_auth
    early_ret ntEnv nrRand arEnv

/-- Result of a command without data output (halt, write, value). -/
structure CmdResult (σ : Type) where
  ret : MfClassicError
  st : PollerState σ
  trace : List PollerEvent

/-- The plaintext halt frame `{0x50, 0x00}` with its CRC, as built by
`mf_classic_poller_halt` before encryption. -/
def mfClassicHaltPlainFrame : BitBuffer :=
  iso14443_crc_append (BitBuffer.ofBytes [MF_CLASSIC_CMD_HALT_MSB, MF_CLASSIC_CMD_HALT_LSB])

/-- `mf_classic_poller_halt`: send the encrypted halt frame; the tag
stays silent on success, so only a link-layer timeout takes the
success path, which resets `AuthState` to idle and forces the
link-layer poller's state field to idle; any other outcome is mapped
through `mf_classic_process_error` and leaves both untouched. -/
def mf_classic_poller_halt (ops : CipherOps σ) (st : PollerState σ)
    (env : LinkResult) : CmdResult σ :=
  let plain := mfClassicHaltPlainFrame
  let ec := ops.encrypt st.crypto plain
  let st1 := { st with
    crypto := ec.1, txPlain := plain, txEncrypted := ec.2, rxEncrypted := env.rx }
  let tr := [PollerEvent.txEncrypted plain]
  if env.err ≠ Iso14443_3aError.timeout then
    { ret := mf_classic_process_error env.err, st := st1, trace := tr }
  else
    { ret := .none, st := { st1 with authState := .idle, isoState := .idle }, trace := tr }

/-- Result of a block read. -/
structure ReadResult (σ : Type) where
  ret : MfClassicError
  st : PollerState σ
  blk : Option (List Nat)
  trace : List PollerEvent

/-- The read command frame, before encryption. -/
def read_block_frame (block_num : Nat) : BitBuffer :=
  iso14443_crc_append (BitBuffer.ofBytes [MF_CLASSIC_CMD_READ_BLOCK, block_num])

/-- The decrypted read response: the cipher has consumed the encrypted
command frame before decrypting the reply. -/
def read_block_decrypted (ops : CipherOps σ) (st : PollerState σ)
    (block_num : Nat) (env : LinkResult) : BitBuffer :=
  (ops.decrypt (ops.encrypt st.crypto (read_block_frame block_num)).1 env.rx).2

/-- `mf_classic_poller_read_block`: send the encrypted 2-byte read
command with CRC; require a clean link outcome, exactly block size + 2
received bytes, and a valid CRC after decryption; then strip the CRC
and copy the 16 block bytes out.  On any failure the out-parameter is
not written. -/
def mf_classic_poller_read_block (ops : CipherOps σ) (st : PollerState σ)
    (block_num : Nat) (env : LinkResult) : ReadResult σ :=
  let plain := read_block_frame block_num
  let ec := ops.encrypt st.crypto plain
  let st1 := { st with
    crypto := ec.1, txPlain := plain, txEncrypted := ec.2, rxEncrypted := env.rx }
  let tr := [PollerEvent.txEncrypted plain]
  if env.err ≠ Iso14443_3aError.none then
    { ret := mf_classic_process_error env.err, st := st1, blk := none, trace := tr }
  else if env.rx.sizeBytes ≠ 16 + 2 then
    { ret := .protocol, st := st1, blk := none, trace := tr }
  else
    let dc := ops.decrypt st1.crypto env.rx
    let st2 := { st1 with crypto := dc.1, rxPlain := dc.2 }
    if iso14443_crc_check dc.2 = false then
      { ret := .protocol, st := st2, blk := none, trace := tr }
    else
      let trimmed := iso14443_crc_trim dc.2
      { ret := .none, st := { st2 with rxPlain := trimmed },
        blk := some (trimmed.bytes.take 16), trace := tr }

/-- The write command frame, before encryption. -/
def write_block_frame1 (block_num : Nat) : BitBuffer :=
  iso14443_crc_append (BitBuffer.ofBytes [MF_CLASSIC_CMD_WRITE_BLOCK, block_num])

/-- The write payload frame, before encryption. -/
def write_block_frame2 (data : List Nat) : BitBuffer :=
  iso14443_crc_append (BitBuffer.ofBytes (data.take 16))

/-- `mf_classic_poller_write_block`: two encrypted phases.  Phase one
sends the 2-byte write command with CRC and requires a clean link
outcome, a 4-bit response (`bit_buffer_get_size == 4`), and a decrypted
first byte equal to the ACK code; phase two sends the 16 payload bytes
with CRC under the same acknowledgement contract. -/
def mf_classic_poller_write_block (ops : CipherOps σ) (st : PollerState σ)
    (block_num : Nat) (data : List Nat) (env1 env2 : LinkResult) : CmdResult σ :=
  let plain1 := write_block_frame1 block_num
  let ec1 := ops.encrypt st.crypto plain1
  let st1 := { st with
    crypto := ec1.1, txPlain := plain1, txEncrypted := ec1.2, rxEncrypted := env1.rx }
  let tr1 := [PollerEvent.txEncrypted plain1]
  if env1.err ≠ Iso14443_3aError.none then
    { ret := mf_classic_process_error env1.err, st := st1, trace := tr1 }
  else if env1.rx.sizeBits ≠ 4 then
    { ret := .protocol, st := st1, trace := tr1 }
  else
    let dc1 := ops.decrypt st1.crypto env1.rx
    let st2 := { st1 with crypto := dc1.1, rxPlain := dc1.2 }
    if dc1.2.getByte 0 ≠ MF_CLASSIC_CMD_ACK then
      { ret := .protocol, st := st2, trace := tr1 }
    else
      let plain2 := write_block_frame2 data
      let ec2 := ops.encrypt st2.crypto plain2
      let st3 := { st2 with
        crypto := ec2.1, txPlain := plain2, txEncrypted := ec2.2, rxEncrypted := env2.rx }
      let tr2 := tr1 ++ [PollerEvent.txEncrypted plain2]
      if env2.err ≠ Iso14443_3aError.none then
        { ret := mf_classic_process_error env2.err, st := st3, trace := tr2 }
      else if env2.rx.sizeBits ≠ 4 then
        { ret := .protocol, st := st3, trace := tr2 }
      else
        let dc2 := ops.decrypt st3.crypto env2.rx
        let st4 := { st3 with crypto := dc2.1, rxPlain := dc2.2 }
        if dc2.2.getByte 0 ≠ MF_CLASSIC_CMD_ACK then
          { ret := .protocol, st := st4, trace := tr2 }
        else
          { ret := .none, st := st4, trace := tr2 }

/-- Little-endian serialization of the 32-bit signed operand, as
produced by the C cast `(uint8_t*)&data` on the little-endian target. -/
def int32LeBytes (v : Int) : List Nat :=
  let w := (v % 4294967296).toNat
  [w % 256, (w / 256) % 256, (w / 65536) % 256, (w / 16777216) % 256]

/-- Opcode selection chain of `mf_classic_poller_value_cmd`:
decrement and increment are matched explicitly, every other command
code falls through to restore. -/
def mf_classic_value_cmd_opcode (cmd : Nat) : Nat :=
  if cmd = MfClassicValueCommandDecrement then MF_CLASSIC_CMD_VALUE_DEC
  else if cmd = MfClassicValueCommandIncrement then MF_CLASSIC_CMD_VALUE_INC
  else MF_CLASSIC_CMD_VALUE_RESTORE

/-- The first (command) frame of a value operation, before encryption. -/
def value_cmd_frame1 (cmd block_num : Nat) : BitBuffer :=
  iso14443_crc_append (BitBuffer.ofBytes [mf_classic_value_cmd_opcode cmd, block_num])

/-- `mf_classic_poller_value_cmd`: select the opcode (decrement,
increment, anything else restore), send it encrypted with CRC, require
a clean link outcome, a 4-bit response and a decrypted ACK byte; then
send the encrypted 4-byte operand with CRC.  The tag is silent on
success, so the operation succeeds exactly when the second exchange
times out; any other second outcome is a protocol error. -/
def mf_classic_poller_value_cmd (ops : CipherOps σ) (st : PollerState σ)
    (block_num : Nat) (cmd : Nat) (data : Int) (env1 env2 : LinkResult) : CmdResult σ :=
  let plain1 := value_cmd_frame1 cmd block_num
  let ec1 := ops.encrypt st.crypto plain1
  let st1 := { st with
    crypto := ec1.1, txPlain := plain1, txEncrypted := ec1.2, rxEncrypted := env1.rx }
  let tr1 := [PollerEvent.txEncrypted plain1]
  if env1.err ≠ Iso14443_3aError.none then
    { ret := mf_classic_process_error env1.err, st := st1, trace := tr1 }
  else if env1.rx.sizeBits ≠ 4 then
    { ret := .protocol, st := st1, trace := tr1 }
  else
    let dc1 := ops.decrypt st1.crypto env1.rx
    let st2 := { st1 with crypto := dc1.1, rxPlain := dc1.2 }
    if dc1.2.getByte 0 ≠ MF_CLASSIC_CMD_ACK then
      { ret := .protocol, st := st2, trace := tr1 }
    else
      let plain2 := iso14443_crc_append (BitBuffer.ofBytes (int32LeBytes data))
      let ec2 := ops.encrypt st2.crypto plain2
      let st3 := { st2 with
        crypto := ec2.1, txPlain := plain2, txEncrypted := ec2.2, rxEncrypted := env2.rx }
      let tr2 := tr1 ++ [PollerEvent.txEncrypted plain2]
      if env2.err ≠ Iso14443_3aError.timeout then
        { ret := .protocol, st := st3, trace := tr2 }
      else
        { ret := .none, st := st3, trace := tr2 }

/-- Exact condition under which `mf_classic_poller_get_nt_common`
returns `MfClassicError.none`: in nested mode a clean link outcome
with a 4-byte payload, in fresh mode either the expected CRC-failure
outcome with a 4-byte payload, or — because a clean outcome maps to
`MfClassicErrorNone` and breaks — a clean link outcome (in which case
the nonce is never written). -/
def nonce_step_ok (is_nested : Bool) (e : LinkResult) : Bool :=
  if is_nested then e.err == Iso14443_3aError.none && e.rx.sizeBytes == 4
  else e.err == Iso14443_3aError.wrongCrc && e.rx.sizeBytes == 4
    || e.err == Iso14443_3aError.none

/-- Genuine nonce retrieval: the expected outcome for the mode and a
4-byte payload, so the nonce out-parameter is actually written. -/
def nonce_exchange_ok (is_nested : Bool) (e : LinkResult) : Bool :=
  (if is_nested then e.err == Iso14443_3aError.none
   else e.err == Iso14443_3aError.wrongCrc) && e.rx.sizeBytes == 4

/-- Acknowledgement byte of a value command's first exchange: the
response decrypted with the keystream as it stands after encrypting
the command frame. -/
def value_cmd_ack_byte (ops : CipherOps σ) (st : PollerState σ)
    (block_num cmd : Nat) (env1 : LinkResult) : Nat :=
  (ops.decrypt (ops.encrypt st.crypto (value_cmd_frame1 cmd block_num)).1 env1.rx).2.getByte 0

/-- Phase-one acknowledgement of a block write: clean link outcome,
4-bit response, decrypted first byte equal to the ACK code. -/
def write_block_ack1 (ops : CipherOps σ) (st : PollerState σ)
    (block_num : Nat) (env1 : LinkResult) : Bool :=
  env1.err == Iso14443_3aError.none && env1.rx.sizeBits == 4 &&
    (ops.decrypt (ops.encrypt st.crypto (write_block_frame1 block_num)).1 env1.rx).2.getByte 0
      == MF_CLASSIC_CMD_ACK

/-- Cipher state after the complete first phase of a block write
(command encrypted, response decrypted). -/
def write_block_crypto1 (ops : CipherOps σ) (st : PollerState σ)
    (block_num : Nat) (env1 : LinkResult) : σ :=
  (ops.decrypt (ops.encrypt st.crypto (write_block_frame1 block_num)).1 env1.rx).1

/-- Phase-two acknowledgement of a block write, with the keystream
continued through phase one and the payload encryption. -/
def write_block_ack2 (ops : CipherOps σ) (st : PollerState σ)
    (block_num : Nat) (data : List Nat) (env1 env2 : LinkResult) : Bool :=
  env2.err == Iso14443_3aError.none && env2.rx.sizeBits == 4 &&
    (ops.decrypt (ops.encrypt (write_block_crypto1 ops st block_num env1)
      (write_block_frame2 data)).1 env2.rx).2.getByte 0 == MF_CLASSIC_CMD_ACK

/-- A cipher with trivial (identity) operations over the unit state,
used to evaluate the model on concrete inputs. -/
def trivialOps : CipherOps Unit :=
  { encrypt := fun s b => (s, b)
    decrypt := fun s b => (s, b)
    word := fun s => s
    encryptReaderNonce := fun s _ _ _ _ _ =>
      (s, BitBuffer.ofBytes [9, 9, 9, 9, 8, 8, 8, 8]) }

/-- A concrete poller session used to evaluate the model. -/
def samplePoller : PollerState Unit :=
  { authState := .idle
    isoState := .activated
    crypto := ()
    pollerCuid := 7
    dataCuid := 0
    txPlain := BitBuffer.ofBytes []
    txEncrypted := BitBuffer.ofBytes []
    rxPlain := BitBuffer.ofBytes []
    rxEncrypted := BitBuffer.ofBytes [] }

/-- A poller session whose authentication state is already passed. -/
def samplePollerPassed : PollerState Unit :=
  { samplePoller with authState := .passed }

/-! Helper lemmas shared by the claim theorems. -/

theorem get_nt_common_ret_none_iff (ops : CipherOps σ) (st : PollerState σ)
    (bn : Nat) (kt : MfClassicKeyType) (req nested bd : Bool) (env : LinkResult) :
    (mf_classic_poller_get_nt_common ops st bn kt req nested bd env).ret =
      MfClassicError.none ↔ nonce_step_ok nested env = true := by
  rcases env with ⟨err, rx⟩
  cases nested <;> cases err <;>
    simp [mf_classic_poller_get_nt_common, nonce_step_ok, mf_classic_process_error] <;>
    by_cases h : rx.sizeBytes = 4 <;> simp [h]

theorem get_nt_common_authState (ops : CipherOps σ) (st : PollerState σ)
    (bn : Nat) (kt : MfClassicKeyType) (req nested bd : Bool) (env : LinkResult) :
    (mf_classic_poller_get_nt_common ops st bn kt req nested bd env).st.authState =
      st.authState := by
  rcases env with ⟨err, rx⟩
  cases nested <;> cases err <;>
    simp [mf_classic_poller_get_nt_common] <;>
    by_cases h : rx.sizeBytes = 4 <;> simp [h]

theorem get_nt_common_nt_of_exchange_ok (ops : CipherOps σ) (st : PollerState σ)
    (bn : Nat) (kt : MfClassicKeyType) (nested bd : Bool) (env : LinkResult)
    (h : nonce_exchange_ok nested env = true) :
    (mf_classic_poller_get_nt_common ops st bn kt true nested bd env).nt =
      some (env.rx.bytes.take 4) := by
  rcases env with ⟨err, rx⟩
  cases nested <;> cases err <;>
    simp_all [mf_classic_poller_get_nt_common, nonce_exchange_ok]

theorem get_nt_common_trace (ops : CipherOps σ) (st : PollerState σ)
    (bn : Nat) (kt : MfClassicKeyType) (req nested bd : Bool) (env : LinkResult) :
    (mf_classic_poller_get_nt_common ops st bn kt req nested bd env).trace =
      if nested then
        [PollerEvent.txEncrypted (iso14443_crc_append
          (BitBuffer.ofBytes [mf_classic_auth_type bd kt, bn]))]
      else [PollerEvent.txStandard (BitBuffer.ofBytes [mf_classic_auth_type bd kt, bn])] := by
  rcases env with ⟨err, rx⟩
  cases nested <;> cases err <;>
    simp [mf_classic_poller_get_nt_common] <;>
    by_cases h : rx.sizeBytes = 4 <;> simp [h]

theorem mf_classic_auth_type_ne_halt (bd : Bool) (kt : MfClassicKeyType) :
    mf_classic_auth_type bd kt ≠ MF_CLASSIC_CMD_HALT_MSB := by
  cases bd <;> cases kt <;> decide

/-! Claim C1. -/

/-- C1, counterexample to the claim as stated.  The claim says that
any fresh-nonce link outcome other than a checksum failure — "including
a clean (no-error) success" — is treated as a protocol error.  In the
code a clean success takes `mf_classic_process_error(Iso14443_3aErrorNone)
= MfClassicErrorNone` and breaks, so the call returns success (not
`Protocol`) while leaving the nonce out-parameter unwritten. -/
theorem c1_fresh_nonce_counterexample :
    (mf_classic_poller_get_nt trivialOps samplePoller 1 .a true false
      ⟨.none, BitBuffer.ofBytes [1, 2, 3, 4]⟩).ret = MfClassicError.none ∧
    MfClassicError.none ≠ MfClassicError.protocol ∧
    (mf_classic_poller_get_nt trivialOps samplePoller 1 .a true false
      ⟨.none, BitBuffer.ofBytes [1, 2, 3, 4]⟩).nt = none := by
  refine ⟨rfl, by decide, rfl⟩

/-- C1 (amended): for every key type, block number and backdoor flag,
a fresh nonce request whose link exchange reports a checksum failure
and carries exactly 4 payload bytes returns success with those bytes
as the nonce, unmodified.  Any other link outcome aborts without
writing the nonce and returns the ErrorMapper image of that outcome —
`Protocol` for collision/communication/unknown failures, but `None`
(success) for a clean no-error exchange, `Timeout` for a timeout and
`NotPresent` for an absent card.  A checksum-failure outcome whose
payload is not 4 bytes returns `Protocol` without writing the
nonce. -/
theorem c1_fresh_nonce_amended (ops : CipherOps σ) (st : PollerState σ)
    (bn : Nat) (kt : MfClassicKeyType) (bd : Bool) (env : LinkResult) :
    (env.err = Iso14443_3aError.wrongCrc → env.rx.sizeBytes = 4 →
      (mf_classic_poller_get_nt ops st bn kt true bd env).ret = MfClassicError.none ∧
      (mf_classic_poller_get_nt ops st bn kt true bd env).nt =
        some (env.rx.bytes.take 4)) ∧
    (env.err ≠ Iso14443_3aError.wrongCrc →
      (mf_classic_poller_get_nt ops st bn kt true bd env).ret =
        mf_classic_process_error env.err ∧
      (mf_classic_poller_get_nt ops st bn kt true bd env).nt = none) ∧
    (env.err = Iso14443_3aError.wrongCrc → env.rx.sizeBytes ≠ 4 →
      (mf_classic_poller_get_nt ops st bn kt true bd env).ret = MfClassicError.protocol ∧
      (mf_classic_poller_get_nt ops st bn kt true bd env).nt = none) := by
  rcases env with ⟨err, rx⟩
  refine ⟨fun h1 h2 => ?_, fun h1 => ?_, fun h1 h2 => ?_⟩ <;>
    subst_eqs <;>
    simp_all [mf_classic_poller_get_nt, mf_classic_poller_get_nt_common]

/-- C1 witness: the amended theorem evaluated on a concrete
checksum-failure exchange carrying the payload `[1, 2, 3, 4]`. -/
theorem c1_fresh_nonce_witness :
    (mf_classic_poller_get_nt trivialOps samplePoller 1 .a true false
      ⟨.wrongCrc, BitBuffer.ofBytes [1, 2, 3, 4]⟩).ret = MfClassicError.none ∧
    (mf_classic_poller_get_nt trivialOps samplePoller 1 .a true false
      ⟨.wrongCrc, BitBuffer.ofBytes [1, 2, 3, 4]⟩).nt = some [1, 2, 3, 4] := by
  have h := (c1_fresh_nonce_amended trivialOps samplePoller 1 .a false
    ⟨.wrongCrc, BitBuffer.ofBytes [1, 2, 3, 4]⟩).1 rfl (by decide)
  exact ⟨h.1, by simpa using h.2⟩

/-! Claim C2. -/

/-- C2, counterexample to the claim as stated.  The claim says a card
that answers the halt frame (a clean link success instead of the
expected timeout) makes the operation report `Protocol`.  In the code
this outcome takes `mf_classic_process_error(Iso14443_3aErrorNone) =
MfClassicErrorNone` and breaks, so `halt` reports success while
leaving `AuthState` (here `Passed`) untouched. -/
theorem c2_halt_counterexample :
    (mf_classic_poller_halt trivialOps samplePollerPassed
      ⟨.none, BitBuffer.ofBytes [10]⟩).ret = MfClassicError.none ∧
    MfClassicError.none ≠ MfClassicError.protocol ∧
    (mf_classic_poller_halt trivialOps samplePollerPassed
      ⟨.none, BitBuffer.ofBytes [10]⟩).st.authState = MfClassicAuthState.passed := by
  refine ⟨rfl, by decide, rfl⟩

/-- C2 (amended): when `halt` receives any link outcome other than a
timeout, it returns the ErrorMapper image of that outcome — `Protocol`
for collision/communication/CRC failures, but `None` (success) for a
card that responds cleanly, `NotPresent` for an absent card — and both
`AuthState` and the link-layer poller state are left unchanged.  Only
on the expected timeout does `halt` reset `AuthState` to `Idle`, force
the link-layer poller state to idle and return success. -/
theorem c2_halt_amended (ops : CipherOps σ) (st : PollerState σ) (env : LinkResult) :
    (env.err ≠ Iso14443_3aError.timeout →
      (mf_classic_poller_halt ops st env).ret = mf_classic_process_error env.err ∧
      (mf_classic_poller_halt ops st env).st.authState = st.authState ∧
      (mf_classic_poller_halt ops st env).st.isoState = st.isoState) ∧
    (env.err = Iso14443_3aError.timeout →
      (mf_classic_poller_halt ops st env).ret = MfClassicError.none ∧
      (mf_classic_poller_halt ops st env).st.authState = MfClassicAuthState.idle ∧
      (mf_classic_poller_halt ops st env).st.isoState = Iso14443_3aPollerState.idle) := by
  refine ⟨fun h => ?_, fun h => ?_⟩ <;>
    simp_all [mf_classic_poller_halt]

/-- C2 witness: the amended theorem evaluated on the expected timeout
outcome, starting from a passed session. -/
theorem c2_halt_witness :
    (mf_classic_poller_halt trivialOps samplePollerPassed
      ⟨.timeout, BitBuffer.ofBytes []⟩).ret = MfClassicError.none ∧
    (mf_classic_poller_halt trivialOps samplePollerPassed
      ⟨.timeout, BitBuffer.ofBytes []⟩).st.authState = MfClassicAuthState.idle ∧
    (mf_classic_poller_halt trivialOps samplePollerPassed
      ⟨.timeout, BitBuffer.ofBytes []⟩).st.isoState = Iso14443_3aPollerState.idle :=
  (c2_halt_amended trivialOps samplePollerPassed ⟨.timeout, BitBuffer.ofBytes []⟩).2 rfl

/-! Claim C3. -/

/-- C3, counterexample to the claim as stated.  The claim says no
execution path leaves `AuthState = Passed` while the operation that
set it returns an error.  A fresh authentication whose nonce exchange
succeeds but whose tag response is 3 bytes instead of 4 returns the
`Auth` error and still leaves the session `Passed`. -/
theorem c3_auth_state_counterexample :
    (mf_classic_poller_auth trivialOps samplePoller 1 [1, 2, 3, 4, 5, 6] .a true false
      ⟨.wrongCrc, BitBuffer.ofBytes [1, 2, 3, 4]⟩ [5, 6, 7, 8]
      ⟨.none, BitBuffer.ofBytes [1, 2, 3]⟩).ret = MfClassicError.auth ∧
    MfClassicError.auth ≠ MfClassicError.none ∧
    (mf_classic_poller_auth trivialOps samplePoller 1 [1, 2, 3, 4, 5, 6] .a true false
      ⟨.wrongCrc, BitBuffer.ofBytes [1, 2, 3, 4]⟩ [5, 6, 7, 8]
      ⟨.none, BitBuffer.ofBytes [1, 2, 3]⟩).st.authState = MfClassicAuthState.passed := by
  refine ⟨rfl, by decide, rfl⟩

/-- C3 (amended): after an authentication call, `AuthState` is
`Passed` exactly when either the call reached the keystream-advance
step — its nonce step returned no error, it was not an early return,
and the challenge/response exchange reported no link error, even when
the tag-response length check failed and the call returns an `Auth`
error — or the session was already `Passed` beforehand (no
authentication error path resets the flag; only a successful halt
does). -/
theorem c3_auth_state_amended (ops : CipherOps σ) (st : PollerState σ)
    (bn : Nat) (key : List Nat) (kt : MfClassicKeyType) (hd nested bd early : Bool)
    (ntEnv : LinkResult) (nrRand : List Nat) (arEnv : LinkResult) :
    (mf_classic_poller_auth_common ops st bn key kt hd nested bd early
      ntEnv nrRand arEnv).st.authState = MfClassicAuthState.passed ↔
      ((nonce_step_ok nested ntEnv = true ∧ early = false ∧
          arEnv.err = Iso14443_3aError.none) ∨
        st.authState = MfClassicAuthState.passed) := by
  have hiff := get_nt_common_ret_none_iff ops { st with dataCuid := st.pollerCuid }
    bn kt true nested bd ntEnv
  have hauth := get_nt_common_authState ops { st with dataCuid := st.pollerCuid }
    bn kt true nested bd ntEnv
  by_cases h1 : (mf_classic_poller_get_nt_common ops { st with dataCuid := st.pollerCuid }
      bn kt true nested bd ntEnv).ret = MfClassicError.none
  · have hok : nonce_step_ok nested ntEnv = true := hiff.mp h1
    cases early
    · by_cases h3 : arEnv.err = Iso14443_3aError.none
      · simp only [mf_classic_poller_auth_common, iso14443_3a_poller_halt]
        by_cases h4 : arEnv.rx.sizeBytes = 4 <;> simp_all
      · simp only [mf_classic_poller_auth_common, iso14443_3a_poller_halt]
        simp_all
    · simp only [mf_classic_poller_auth_common, iso14443_3a_poller_halt]
      simp_all
  · have hok : ¬ nonce_step_ok nested ntEnv = true := fun hx => h1 (hiff.mpr hx)
    simp only [mf_classic_poller_auth_common, iso14443_3a_poller_halt]
    simp_all

/-- C3 witness: a fully successful fresh authentication starting from
an idle session ends `Passed`. -/
theorem c3_auth_state_witness :
    (mf_classic_poller_auth_common trivialOps samplePoller 1 [1, 2, 3, 4, 5, 6] .a
      true false false false ⟨.wrongCrc, BitBuffer.ofBytes [1, 2, 3, 4]⟩ [5, 6, 7, 8]
      ⟨.none, BitBuffer.ofBytes [1, 2, 3, 4]⟩).st.authState = MfClassicAuthState.passed :=
  (c3_auth_state_amended trivialOps samplePoller 1 [1, 2, 3, 4, 5, 6] .a
    true false false false ⟨.wrongCrc, BitBuffer.ofBytes [1, 2, 3, 4]⟩ [5, 6, 7, 8]
    ⟨.none, BitBuffer.ofBytes [1, 2, 3, 4]⟩).mpr (Or.inl ⟨by decide, rfl, rfl⟩)

/-! Claim C4. -/

/-- C4 (confirmed): in an authentication whose nonce step succeeded
and whose challenge/response exchange reported no link error but
returned a tag response that is not exactly 4 bytes, the call records
the `Auth` error as its result, yet still advances the cipher
keystream by exactly one word and still marks `AuthState = Passed`
before returning. -/
theorem c4_auth_length_mismatch (ops : CipherOps σ) (st : PollerState σ)
    (bn : Nat) (key : List Nat) (kt : MfClassicKeyType) (hd nested bd : Bool)
    (ntEnv : LinkResult) (nrRand : List Nat) (arEnv : LinkResult)
    (h1 : nonce_step_ok nested ntEnv = true)
    (h2 : arEnv.err = Iso14443_3aError.none)
    (h3 : arEnv.rx.sizeBytes ≠ 4) :
    (mf_classic_poller_auth_common ops st bn key kt hd nested bd false
      ntEnv nrRand arEnv).ret = MfClassicError.auth ∧
    (mf_classic_poller_auth_common ops st bn key kt hd nested bd false
      ntEnv nrRand arEnv).st.authState = MfClassicAuthState.passed ∧
    (mf_classic_poller_auth_common ops st bn key kt hd nested bd false
      ntEnv nrRand arEnv).trace.count PollerEvent.cipherWord = 1 := by
  have hiff := get_nt_common_ret_none_iff ops { st with dataCuid := st.pollerCuid }
    bn kt true nested bd ntEnv
  have htr := get_nt_common_trace ops { st with dataCuid := st.pollerCuid }
    bn kt true nested bd ntEnv
  have h1x : (mf_classic_poller_get_nt_common ops { st with dataCuid := st.pollerCuid }
      bn kt true nested bd ntEnv).ret = MfClassicError.none := hiff.mpr h1
  simp only [mf_classic_poller_auth_common, iso14443_3a_poller_halt]
  cases nested <;> simp_all [List.count_append, List.count_cons]

/-- C4 witness: concrete fresh authentication with a 3-byte tag
response. -/
theorem c4_auth_length_mismatch_witness :
    (mf_classic_poller_auth_common trivialOps samplePoller 1 [1, 2, 3, 4, 5, 6] .a
      true false false false ⟨.wrongCrc, BitBuffer.ofBytes [1, 2, 3, 4]⟩ [5, 6, 7, 8]
      ⟨.none, BitBuffer.ofBytes [1, 2, 3]⟩).ret = MfClassicError.auth ∧
    (mf_classic_poller_auth_common trivialOps samplePoller 1 [1, 2, 3, 4, 5, 6] .a
      true false false false ⟨.wrongCrc, BitBuffer.ofBytes [1, 2, 3, 4]⟩ [5, 6, 7, 8]
      ⟨.none, BitBuffer.ofBytes [1, 2, 3]⟩).st.authState = MfClassicAuthState.passed ∧
    (mf_classic_poller_auth_common trivialOps samplePoller 1 [1, 2, 3, 4, 5, 6] .a
      true false false false ⟨.wrongCrc, BitBuffer.ofBytes [1, 2, 3, 4]⟩ [5, 6, 7, 8]
      ⟨.none, BitBuffer.ofBytes [1, 2, 3]⟩).trace.count PollerEvent.cipherWord = 1 :=
  c4_auth_length_mismatch trivialOps samplePoller 1 [1, 2, 3, 4, 5, 6] .a
    true false false ⟨.wrongCrc, BitBuffer.ofBytes [1, 2, 3, 4]⟩ [5, 6, 7, 8]
    ⟨.none, BitBuffer.ofBytes [1, 2, 3]⟩ (by decide) rfl (by decide)

/-! Claim C5. -/

/-- C5 (confirmed): for any value command whose first frame was
acknowledged (clean link outcome, 4-bit response, decrypted ACK
byte), the operation returns success exactly when the second (operand)
frame elicits a link-layer timeout; every other second outcome —
including a clean acknowledged response — makes it return `Protocol`. -/
theorem c5_value_silence (ops : CipherOps σ) (st : PollerState σ)
    (bn cmd : Nat) (data : Int) (env1 env2 : LinkResult)
    (h1 : env1.err = Iso14443_3aError.none)
    (h2 : env1.rx.sizeBits = 4)
    (h3 : value_cmd_ack_byte ops st bn cmd env1 = MF_CLASSIC_CMD_ACK) :
    ((mf_classic_poller_value_cmd ops st bn cmd data env1 env2).ret = MfClassicError.none ↔
      env2.err = Iso14443_3aError.timeout) ∧
    (env2.err ≠ Iso14443_3aError.timeout →
      (mf_classic_poller_value_cmd ops st bn cmd data env1 env2).ret =
        MfClassicError.protocol) := by
  unfold value_cmd_ack_byte at h3
  by_cases h4 : env2.err = Iso14443_3aError.timeout <;>
    simp_all [mf_classic_poller_value_cmd]

/-- C5 witness: first frame acknowledged, second frame silent
(timeout) succeeds; evaluated on the trivial cipher. -/
theorem c5_value_silence_witness :
    (mf_classic_poller_value_cmd trivialOps samplePoller 5
      MfClassicValueCommandIncrement 5 ⟨.none, ⟨4, [10]⟩⟩
      ⟨.timeout, BitBuffer.ofBytes []⟩).ret = MfClassicError.none :=
  (c5_value_silence trivialOps samplePoller 5 MfClassicValueCommandIncrement 5
    ⟨.none, ⟨4, [10]⟩⟩ ⟨.timeout, BitBuffer.ofBytes []⟩ rfl (by decide)
    (by decide)).1.mpr rfl

/-! Claim C6. -/

theorem nonce_exchange_ok_step (nested : Bool) (e : LinkResult)
    (h : nonce_exchange_ok nested e = true) : nonce_step_ok nested e = true := by
  cases nested <;> simp_all [nonce_exchange_ok, nonce_step_ok]

/-- C6 (confirmed): an authentication with `earlyReturn` set whose
nonce retrieval genuinely succeeds returns success, never sends the
reader nonce/response frame, never performs the engine's cipher
keystream-advance step (`crypto1_word`; the cipher-initializing
reader-nonce encryption is likewise never reached), leaves `AuthState`
unchanged, and stores only the retrieved tag nonce in the requested
transcript — reader nonce, reader response and tag response stay
unwritten. -/
theorem c6_early_return (ops : CipherOps σ) (st : PollerState σ)
    (bn : Nat) (key : List Nat) (kt : MfClassicKeyType) (hd nested bd : Bool)
    (ntEnv : LinkResult) (nrRand : List Nat) (arEnv : LinkResult)
    (h : nonce_exchange_ok nested ntEnv = true) :
    (mf_classic_poller_auth_common ops st bn key kt hd nested bd true
      ntEnv nrRand arEnv).ret = MfClassicError.none ∧
    (mf_classic_poller_auth_common ops st bn key kt hd nested bd true
      ntEnv nrRand arEnv).st.authState = st.authState ∧
    (mf_classic_poller_auth_common ops st bn key kt hd nested bd true
      ntEnv nrRand arEnv).trace.count PollerEvent.txReaderNonce = 0 ∧
    (mf_classic_poller_auth_common ops st bn key kt hd nested bd true
      ntEnv nrRand arEnv).trace.count PollerEvent.cipherWord = 0 ∧
    (mf_classic_poller_auth_common ops st bn key kt hd nested bd true
      ntEnv nrRand arEnv).out.nt =
      (if hd then some (ntEnv.rx.bytes.take 4) else none) ∧
    (mf_classic_poller_auth_common ops st bn key kt hd nested bd true
      ntEnv nrRand arEnv).out.nr = none ∧
    (mf_classic_poller_auth_common ops st bn key kt hd nested bd true
      ntEnv nrRand arEnv).out.ar = none ∧
    (mf_classic_poller_auth_common ops st bn key kt hd nested bd true
      ntEnv nrRand arEnv).out.at_ = none := by
  have hstep := nonce_exchange_ok_step nested ntEnv h
  have h1x : (mf_classic_poller_get_nt_common ops { st with dataCuid := st.pollerCuid }
      bn kt true nested bd ntEnv).ret = MfClassicError.none :=
    (get_nt_common_ret_none_iff ops { st with dataCuid := st.pollerCuid }
      bn kt true nested bd ntEnv).mpr hstep
  have hnt := get_nt_common_nt_of_exchange_ok ops { st with dataCuid := st.pollerCuid }
    bn kt nested bd ntEnv h
  have hauth := get_nt_common_authState ops { st with dataCuid := st.pollerCuid }
    bn kt true nested bd ntEnv
  have htr := get_nt_common_trace ops { st with dataCuid := st.pollerCuid }
    bn kt true nested bd ntEnv
  simp only [mf_classic_poller_auth_common, iso14443_3a_poller_halt]
  cases nested <;> simp_all [List.count_cons]

/-- C6 witness: a concrete nested early-return harvesting call. -/
theorem c6_early_return_witness :
    (mf_classic_poller_auth_common trivialOps samplePoller 1 [1, 2, 3, 4, 5, 6] .a
      true true false true ⟨.none, BitBuffer.ofBytes [1, 2, 3, 4]⟩ [5, 6, 7, 8]
      ⟨.none, BitBuffer.ofBytes [1, 2, 3, 4]⟩).ret = MfClassicError.none ∧
    (mf_classic_poller_auth_common trivialOps samplePoller 1 [1, 2, 3, 4, 5, 6] .a
      true true false true ⟨.none, BitBuffer.ofBytes [1, 2, 3, 4]⟩ [5, 6, 7, 8]
      ⟨.none, BitBuffer.ofBytes [1, 2, 3, 4]⟩).trace.count PollerEvent.txReaderNonce = 0 ∧
    (mf_classic_poller_auth_common trivialOps samplePoller 1 [1, 2, 3, 4, 5, 6] .a
      true true false true ⟨.none, BitBuffer.ofBytes [1, 2, 3, 4]⟩ [5, 6, 7, 8]
      ⟨.none, BitBuffer.ofBytes [1, 2, 3, 4]⟩).out.nt = some [1, 2, 3, 4] := by
  have h := c6_early_return trivialOps samplePoller 1 [1, 2, 3, 4, 5, 6] .a
    true true false ⟨.none, BitBuffer.ofBytes [1, 2, 3, 4]⟩ [5, 6, 7, 8]
    ⟨.none, BitBuffer.ofBytes [1, 2, 3, 4]⟩ (by decide)
  exact ⟨h.1, h.2.2.1, by simpa using h.2.2.2.2.1⟩

/-! Claim C7. -/

theorem mf_classic_process_error_eq_none_iff (e : Iso14443_3aError) :
    mf_classic_process_error e = MfClassicError.none ↔ e = Iso14443_3aError.none := by
  cases e <;> simp [mf_classic_process_error]

theorem auth_frame_ne_halt_frame (bd : Bool) (kt : MfClassicKeyType) (bn : Nat) :
    iso14443_crc_append (BitBuffer.ofBytes [mf_classic_auth_type bd kt, bn]) ≠
      mfClassicHaltPlainFrame := by
  intro hcontra
  have hb := congrArg (fun b => b.bytes.head?) hcontra
  have hh : mfClassicHaltPlainFrame.bytes.head? = some MF_CLASSIC_CMD_HALT_MSB := by decide
  simp only [iso14443_crc_append, BitBuffer.ofBytes, hh, List.cons_append,
    List.head?_cons, Option.some.injEq] at hb
  exact mf_classic_auth_type_ne_halt bd kt hb

/-- C7, counterexample to the claim as stated.  The claim says any
failing `authenticate` issues SessionTeardown's halt sequence before
returning.  SessionTeardown's halt always transmits the encrypted
2-byte halt frame (third conjunct), yet a fresh authentication whose
nonce exchange times out fails without transmitting that frame at all
— the code only invokes the link layer's own halt. -/
theorem c7_halt_on_failure_counterexample :
    (mf_classic_poller_auth trivialOps samplePoller 1 [1, 2, 3, 4, 5, 6] .a true false
      ⟨.timeout, BitBuffer.ofBytes []⟩ [5, 6, 7, 8]
      ⟨.none, BitBuffer.ofBytes [1, 2, 3]⟩).ret = MfClassicError.timeout ∧
    MfClassicError.timeout ≠ MfClassicError.none ∧
    (mf_classic_poller_auth trivialOps samplePoller 1 [1, 2, 3, 4, 5, 6] .a true false
      ⟨.timeout, BitBuffer.ofBytes []⟩ [5, 6, 7, 8]
      ⟨.none, BitBuffer.ofBytes [1, 2, 3]⟩).trace.count
      (PollerEvent.txEncrypted mfClassicHaltPlainFrame) = 0 ∧
    (mf_classic_poller_halt trivialOps samplePoller
      ⟨.timeout, BitBuffer.ofBytes []⟩).trace.count
      (PollerEvent.txEncrypted mfClassicHaltPlainFrame) = 1 := by
  refine ⟨rfl, by decide, by decide, by decide⟩

/-- C7 (amended): whenever an authentication call returns an error it
invokes the link layer's own halt exactly once before returning,
forcing the link-layer poller state to idle; on success it invokes no
halt; and in no case does it transmit SessionTeardown's encrypted halt
frame (so `AuthState` is not reset by the failure path). -/
theorem c7_halt_on_failure_amended (ops : CipherOps σ) (st : PollerState σ)
    (bn : Nat) (key : List Nat) (kt : MfClassicKeyType) (hd nested bd early : Bool)
    (ntEnv : LinkResult) (nrRand : List Nat) (arEnv : LinkResult) :
    ((mf_classic_poller_auth_common ops st bn key kt hd nested bd early
        ntEnv nrRand arEnv).ret ≠ MfClassicError.none →
      (mf_classic_poller_auth_common ops st bn key kt hd nested bd early
        ntEnv nrRand arEnv).trace.count PollerEvent.linkHalt = 1 ∧
      (mf_classic_poller_auth_common ops st bn key kt hd nested bd early
        ntEnv nrRand arEnv).st.isoState = Iso14443_3aPollerState.idle) ∧
    ((mf_classic_poller_auth_common ops st bn key kt hd nested bd early
        ntEnv nrRand arEnv).ret = MfClassicError.none →
      (mf_classic_poller_auth_common ops st bn key kt hd nested bd early
        ntEnv nrRand arEnv).trace.count PollerEvent.linkHalt = 0) ∧
    (mf_classic_poller_auth_common ops st bn key kt hd nested bd early
      ntEnv nrRand arEnv).trace.count
      (PollerEvent.txEncrypted mfClassicHaltPlainFrame) = 0 := by
  have htr := get_nt_common_trace ops { st with dataCuid := st.pollerCuid }
    bn kt true nested bd ntEnv
  have hne := auth_frame_ne_halt_frame bd kt bn
  by_cases h1 : (mf_classic_poller_get_nt_common ops { st with dataCuid := st.pollerCuid }
      bn kt true nested bd ntEnv).ret = MfClassicError.none
  · cases early
    · by_cases h3 : arEnv.err = Iso14443_3aError.none
      · simp only [mf_classic_poller_auth_common, iso14443_3a_poller_halt]
        by_cases h4 : arEnv.rx.sizeBytes = 4 <;>
          cases nested <;> simp_all [List.count_append, List.count_cons]
      · simp only [mf_classic_poller_auth_common, iso14443_3a_poller_halt]
        cases nested <;> simp_all [List.count_append, List.count_cons,
          mf_classic_process_error_eq_none_iff]
    · simp only [mf_classic_poller_auth_common, iso14443_3a_poller_halt]
      cases nested <;> simp_all [List.count_cons]
  · simp only [mf_classic_poller_auth_common, iso14443_3a_poller_halt]
    cases nested <;> simp_all [List.count_append, List.count_cons]

/-- C7 witness: a timed-out nonce exchange fails with exactly one
link-layer halt and an idle link poller. -/
theorem c7_halt_on_failure_witness :
    (mf_classic_poller_auth_common trivialOps samplePoller 1 [1, 2, 3, 4, 5, 6] .a
      true false false false ⟨.timeout, BitBuffer.ofBytes []⟩ [5, 6, 7, 8]
      ⟨.none, BitBuffer.ofBytes [1, 2, 3]⟩).trace.count PollerEvent.linkHalt = 1 ∧
    (mf_classic_poller_auth_common trivialOps samplePoller 1 [1, 2, 3, 4, 5, 6] .a
      true false false false ⟨.timeout, BitBuffer.ofBytes []⟩ [5, 6, 7, 8]
      ⟨.none, BitBuffer.ofBytes [1, 2, 3]⟩).st.isoState = Iso14443_3aPollerState.idle :=
  (c7_halt_on_failure_amended trivialOps samplePoller 1 [1, 2, 3, 4, 5, 6] .a
    true false false false ⟨.timeout, BitBuffer.ofBytes []⟩ [5, 6, 7, 8]
    ⟨.none, BitBuffer.ofBytes [1, 2, 3]⟩).1 (by decide)

/-! Claim C8. -/

/-- C8, counterexample to the claim as stated.  First conjunct: a
4-byte (32-bit) response whose decrypted first byte is the ACK value —
exactly the acknowledgement shape the claim describes — is rejected
with `Protocol`, because the code gates each phase on a 4-bit frame
(`bit_buffer_get_size == 4`), not a 4-byte one.  Second conjunct: a
transport error (timeout) on the first frame returns `Timeout`, not
the `Protocol` the claim prescribes for any deviation. -/
theorem c8_write_block_counterexample :
    ((⟨32, [10, 0, 0, 0]⟩ : BitBuffer).sizeBytes = 4 ∧
      (⟨32, [10, 0, 0, 0]⟩ : BitBuffer).getByte 0 = MF_CLASSIC_CMD_ACK ∧
      (mf_classic_poller_write_block trivialOps samplePoller 5 (List.replicate 16 1)
        ⟨.none, ⟨32, [10, 0, 0, 0]⟩⟩ ⟨.none, ⟨32, [10, 0, 0, 0]⟩⟩).ret =
        MfClassicError.protocol) ∧
    ((mf_classic_poller_write_block trivialOps samplePoller 5 (List.replicate 16 1)
        ⟨.timeout, BitBuffer.ofBytes []⟩ ⟨.none, ⟨32, [10, 0, 0, 0]⟩⟩).ret =
        MfClassicError.timeout ∧
      MfClassicError.timeout ≠ MfClassicError.protocol) := by
  refine ⟨⟨by decide, by decide, rfl⟩, rfl, by decide⟩

/-- C8 (amended): `write(block, data)` proceeds in two phases, each
gated on an acknowledgement received in a 4-bit encrypted frame whose
first byte, after decryption, equals the protocol ACK value: first the
2-byte write command plus checksum, then on ACK the 16-byte payload
plus checksum, then a second ACK of the same shape — the operation
succeeds exactly when both acknowledgements arrive.  A wrong frame
size or a non-ACK byte on a clean exchange returns `Protocol`, while a
transport error returns that error's ErrorMapper image (`Timeout` for
a timeout, `NotPresent` for an absent card, `Protocol` otherwise). -/
theorem c8_write_block_amended (ops : CipherOps σ) (st : PollerState σ)
    (bn : Nat) (data : List Nat) (env1 env2 : LinkResult) :
    ((mf_classic_poller_write_block ops st bn data env1 env2).ret = MfClassicError.none ↔
      write_block_ack1 ops st bn env1 = true ∧
      write_block_ack2 ops st bn data env1 env2 = true) ∧
    (env1.err ≠ Iso14443_3aError.none →
      (mf_classic_poller_write_block ops st bn data env1 env2).ret =
        mf_classic_process_error env1.err) ∧
    (env1.err = Iso14443_3aError.none → write_block_ack1 ops st bn env1 = false →
      (mf_classic_poller_write_block ops st bn data env1 env2).ret =
        MfClassicError.protocol) ∧
    (write_block_ack1 ops st bn env1 = true → env2.err ≠ Iso14443_3aError.none →
      (mf_classic_poller_write_block ops st bn data env1 env2).ret =
        mf_classic_process_error env2.err) ∧
    (write_block_ack1 ops st bn env1 = true → env2.err = Iso14443_3aError.none →
      write_block_ack2 ops st bn data env1 env2 = false →
      (mf_classic_poller_write_block ops st bn data env1 env2).ret =
        MfClassicError.protocol) := by
  unfold mf_classic_poller_write_block write_block_ack1 write_block_ack2 write_block_crypto1
  by_cases e1 : env1.err = Iso14443_3aError.none
  · by_cases s1 : env1.rx.sizeBits = 4
    · by_cases a1 : (ops.decrypt (ops.encrypt st.crypto (write_block_frame1 bn)).1
          env1.rx).2.getByte 0 = MF_CLASSIC_CMD_ACK
      · by_cases e2 : env2.err = Iso14443_3aError.none
        · by_cases s2 : env2.rx.sizeBits = 4
          · by_cases a2 : (ops.decrypt (ops.encrypt
                ((ops.decrypt (ops.encrypt st.crypto (write_block_frame1 bn)).1 env1.rx).1)
                (write_block_frame2 data)).1 env2.rx).2.getByte 0 = MF_CLASSIC_CMD_ACK <;>
              simp_all
          · simp_all
        · simp_all [mf_classic_process_error_eq_none_iff]
      · simp_all
    · simp_all
  · simp_all [mf_classic_process_error_eq_none_iff]

/-- C8 witness: both phases acknowledged in 4-bit frames succeed,
evaluated on the trivial cipher. -/
theorem c8_write_block_witness :
    (mf_classic_poller_write_block trivialOps samplePoller 5 (List.replicate 16 1)
      ⟨.none, ⟨4, [10]⟩⟩ ⟨.none, ⟨4, [10]⟩⟩).ret = MfClassicError.none :=
  (c8_write_block_amended trivialOps samplePoller 5 (List.replicate 16 1)
    ⟨.none, ⟨4, [10]⟩⟩ ⟨.none, ⟨4, [10]⟩⟩).1.mpr ⟨by decide, by decide⟩

/-! Claim C9. -/

/-- C9 (confirmed): `read(block)` succeeds exactly when the link
exchange is clean, the encrypted response is exactly block size + 2
bytes, and its decryption passes the checksum check; then the checksum
is stripped and the remaining 16 bytes are returned.  A wrong-length
response or a checksum mismatch yields `Protocol`, and on every
non-success return the caller's output block is left unwritten. -/
theorem c9_read_block (ops : CipherOps σ) (st : PollerState σ)
    (bn : Nat) (env : LinkResult) :
    ((mf_classic_poller_read_block ops st bn env).ret = MfClassicError.none ↔
      env.err = Iso14443_3aError.none ∧ env.rx.sizeBytes = 18 ∧
      iso14443_crc_check (read_block_decrypted ops st bn env) = true) ∧
    (env.err = Iso14443_3aError.none → env.rx.sizeBytes = 18 →
      iso14443_crc_check (read_block_decrypted ops st bn env) = true →
      (mf_classic_poller_read_block ops st bn env).blk =
        some ((iso14443_crc_trim (read_block_decrypted ops st bn env)).bytes.take 16)) ∧
    (env.err = Iso14443_3aError.none → env.rx.sizeBytes ≠ 18 →
      (mf_classic_poller_read_block ops st bn env).ret = MfClassicError.protocol ∧
      (mf_classic_poller_read_block ops st bn env).blk = none) ∧
    (env.err = Iso14443_3aError.none → env.rx.sizeBytes = 18 →
      iso14443_crc_check (read_block_decrypted ops st bn env) = false →
      (mf_classic_poller_read_block ops st bn env).ret = MfClassicError.protocol ∧
      (mf_classic_poller_read_block ops st bn env).blk = none) ∧
    ((mf_classic_poller_read_block ops st bn env).ret ≠ MfClassicError.none →
      (mf_classic_poller_read_block ops st bn env).blk = none) := by
  unfold mf_classic_poller_read_block read_block_decrypted
  by_cases e1 : env.err = Iso14443_3aError.none
  · by_cases s1 : env.rx.sizeBytes = 18
    · by_cases c1 : iso14443_crc_check
          (ops.decrypt (ops.encrypt st.crypto (read_block_frame bn)).1 env.rx).2 = true <;>
        simp_all
    · simp_all
  · simp_all [mf_classic_process_error_eq_none_iff]

/-- C9 witness: a well-formed 18-byte response (16 zero bytes plus
their CRC) is decrypted by the trivial cipher, passes the checksum
check and round-trips the 16 block bytes. -/
theorem c9_read_block_witness :
    (mf_classic_poller_read_block trivialOps samplePoller 5
      ⟨.none, iso14443_crc_append ⟨128, List.replicate 16 0⟩⟩).blk =
      some (List.replicate 16 0) := by
  have h := (c9_read_block trivialOps samplePoller 5
    ⟨.none, iso14443_crc_append ⟨128, List.replicate 16 0⟩⟩).2.1 rfl (by decide) (by decide)
  simpa using h

/-! Claim C10. -/

theorem value_cmd_trace_head (ops : CipherOps σ) (st : PollerState σ)
    (bn cmd : Nat) (data : Int) (env1 env2 : LinkResult) :
    (mf_classic_poller_value_cmd ops st bn cmd data env1 env2).trace.head? =
      some (PollerEvent.txEncrypted (value_cmd_frame1 cmd bn)) := by
  by_cases e1 : env1.err = Iso14443_3aError.none
  · by_cases s1 : env1.rx.sizeBits = 4
    · by_cases a1 : (ops.decrypt (ops.encrypt st.crypto (value_cmd_frame1 cmd bn)).1
          env1.rx).2.getByte 0 = MF_CLASSIC_CMD_ACK
      · by_cases e2 : env2.err = Iso14443_3aError.timeout <;>
          simp_all [mf_classic_poller_value_cmd]
      · simp_all [mf_classic_poller_value_cmd]
    · simp_all [mf_classic_poller_value_cmd]
  · simp_all [mf_classic_poller_value_cmd]

/-- C10 (confirmed): the value command selection chain is total and
defaults to restore — for every command code that is neither the
decrement nor the increment enumeration value (including codes outside
the declared enumeration), the selected opcode is the restore opcode
and the first transmitted frame carries it. -/
theorem c10_value_cmd_defaults_restore (ops : CipherOps σ) (st : PollerState σ)
    (bn cmd : Nat) (data : Int) (env1 env2 : LinkResult)
    (h1 : cmd ≠ MfClassicValueCommandDecrement)
    (h2 : cmd ≠ MfClassicValueCommandIncrement) :
    mf_classic_value_cmd_opcode cmd = MF_CLASSIC_CMD_VALUE_RESTORE ∧
    (mf_classic_poller_value_cmd ops st bn cmd data env1 env2).trace.head? =
      some (PollerEvent.txEncrypted (iso14443_crc_append
        (BitBuffer.ofBytes [MF_CLASSIC_CMD_VALUE_RESTORE, bn]))) := by
  have hop : mf_classic_value_cmd_opcode cmd = MF_CLASSIC_CMD_VALUE_RESTORE := by
    simp [mf_classic_value_cmd_opcode, h1, h2]
  refine ⟨hop, ?_⟩
  rw [value_cmd_trace_head, value_cmd_frame1, hop]

/-- C10 witness: the out-of-enumeration command code 7 transmits the
restore opcode. -/
theorem c10_value_cmd_defaults_restore_witness :
    (mf_classic_poller_value_cmd trivialOps samplePoller 5 7 5
      ⟨.none, ⟨4, [10]⟩⟩ ⟨.timeout, BitBuffer.ofBytes []⟩).trace.head? =
      some (PollerEvent.txEncrypted (iso14443_crc_append
        (BitBuffer.ofBytes [MF_CLASSIC_CMD_VALUE_RESTORE, 5]))) :=
  (c10_value_cmd_defaults_restore trivialOps samplePoller 5 7 5
    ⟨.none, ⟨4, [10]⟩⟩ ⟨.timeout, BitBuffer.ofBytes []⟩ (by decide) (by decide)).2

end MfClassic
